import Mathlib

/-!
Verification of the voice-call webhook bridge (`src/app.py`).

The application is a FastAPI app with two Twilio webhook endpoints:

* `POST /voice` (`voice_handler`) returns TwiML prompting the caller and
  recording their question;
* `POST /process_recording` (`process_recording`) downloads the recording,
  transcribes it (OpenAI Whisper), asks ChatGPT, synthesizes the answer with
  gTTS and returns TwiML playing the generated mp3, with a spoken apology on
  each failure path.

The embedding models TwiML responses as lists of verbs, the external HTTP
services as oracle functions supplied in an environment record, and tracks the
externally visible calls made by a request as an explicit trace.
-/

namespace CallQA

/-- A TwiML verb, as produced by `twilio.twiml.voice_response.VoiceResponse`.
Field order of `record` follows the keyword arguments used at the call site in
`voice_handler`: `max_length`, `play_beep`, `trim`, `action`, `finish_on_key`. -/
inductive TwiMLVerb where
  | say (text : String)
  | record (maxLength : Nat) (playBeep : Bool) (trim : String)
      (action : String) (finishOnKey : String)
  | pause (length : Nat)
  | play (url : String)
  deriving DecidableEq, Repr

/-- Whether a character must be escaped in XML text content. -/
def xmlEscapeChar (c : Char) : List Char :=
  if c = '&' then "&amp;".toList
  else if c = '<' then "&lt;".toList
  else if c = '>' then "&gt;".toList
  else if c = '"' then "&quot;".toList
  else [c]

/-- Escape a string for inclusion in XML text or attribute values. -/
def xmlEscape (s : String) : String :=
  String.mk (s.toList.flatMap xmlEscapeChar)

/-- Render one TwiML verb to XML.  Models the serialization performed by the
`twilio` library when `VoiceResponse.to_xml` is called (a third-party
dependency of `src/app.py`, not repository code). -/
def TwiMLVerb.toXmlFragment : TwiMLVerb → String
  | .say t => "<Say>" ++ xmlEscape t ++ "</Say>"
  | .record maxLength playBeep trim action finishOnKey =>
      "<Record action=\"" ++ xmlEscape action ++
      "\" finishOnKey=\"" ++ xmlEscape finishOnKey ++
      "\" maxLength=\"" ++ toString maxLength ++
      "\" playBeep=\"" ++ (if playBeep then "true" else "false") ++
      "\" trim=\"" ++ xmlEscape trim ++ "\"/>"
  | .pause len => "<Pause length=\"" ++ toString len ++ "\"/>"
  | .play url => "<Play>" ++ xmlEscape url ++ "</Play>"

/-- Render a whole `VoiceResponse` (a list of verbs) to the XML document
returned by `to_xml`. -/
def toXml (vs : List TwiMLVerb) : String :=
  "<?xml version=\"1.0\" encoding=\"UTF-8\"?><Response>" ++
    String.join (vs.map TwiMLVerb.toXmlFragment) ++ "</Response>"

/-- An HTTP reply as produced by `PlainTextResponse(..., media_type=...)`.
FastAPI's `PlainTextResponse` defaults to HTTP status 200. -/
structure HttpReply where
  status : Nat
  mediaType : String
  content : String
  deriving DecidableEq, Repr

/-- Every branch of both handlers returns
`PlainTextResponse(resp.to_xml(), media_type="application/xml")`; this helper
captures that common wrapping. -/
def twimlReply (vs : List TwiMLVerb) : HttpReply :=
  { status := 200, mediaType := "application/xml", content := toXml vs }

/-- An externally visible call made while handling `/process_recording`:
one of the three pipeline clients (`transcribe_audio_from_url`, `ask_chatgpt`,
`tts_save_mp3`).  Used to state "the client is never invoked" properties. -/
inductive ExtCall where
  | transcribeCall (url : String) (filename : String)
  | chatCall (prompt : String)
  | ttsCall (text : String) (outName : String)
  deriving DecidableEq, Repr

def ExtCall.isTranscribe : ExtCall → Bool
  | .transcribeCall _ _ => true
  | _ => false

def ExtCall.isChat : ExtCall → Bool
  | .chatCall _ => true
  | _ => false

def ExtCall.isTts : ExtCall → Bool
  | .ttsCall _ _ => true
  | _ => false

/-- The environment of a `/process_recording` request: the behaviour of the
three external clients (each may return a value or raise an exception, whose
Python message is modelled as the `String` of the `Except.error`), together
with the hex token produced by `uuid.uuid4().hex` for this request. -/
structure Env where
  transcribe : String → String → Except String String
  askChatgpt : String → Except String String
  ttsSaveMp3 : String → String → Except String String
  unique : String

/-! ### The `/process_recording` handler (`process_recording`, app.py:97-152) -/

/-- Fixed apology / closing strings spoken by `process_recording`. -/
def missingRecordingMsg : String :=
  "Sorry, I couldn't find your recording. Goodbye."

def audioErrorMsg : String :=
  "Sorry, there was an error processing your audio. Please try again later. Goodbye."

def chatErrorMsg : String :=
  "Sorry, I couldn't generate an answer at the moment. Goodbye."

def ttsErrorMsg : String :=
  "Sorry, an error occurred preparing my reply. Goodbye."

def closingMsg : String :=
  "If you have another question, please call again. Goodbye."

/-- Python's `str.strip()` with no argument: remove leading and trailing
whitespace.  Defined by structural recursion on the character list so that it
evaluates on concrete strings. -/
def pyStrip (s : String) : String :=
  String.mk
    (((s.data.dropWhile Char.isWhitespace).reverse.dropWhile
        Char.isWhitespace).reverse)

def voicePrompt : String :=
  "Hello. Ask your question after the beep. When you are done, please hang up or press the pound key."

def voiceFallback : String :=
  "No recording received. Goodbye."

/-- The transcription stage of `process_recording` (app.py:112-118): try the
`".mp3"`-suffixed URL first and, when the transcript is whitespace-only, retry
with the unmodified URL.  Returns the transcript or the caught exception,
together with the transcription calls issued. -/
def transcriptionStage (env : Env) (url fname : String) :
    Except String String × List ExtCall :=
  match env.transcribe (url ++ ".mp3") fname with
  | .error e => (.error e, [.transcribeCall (url ++ ".mp3") fname])
  | .ok t =>
      if pyStrip t = "" then
        match env.transcribe url fname with
        | .error e =>
            (.error e,
              [.transcribeCall (url ++ ".mp3") fname, .transcribeCall url fname])
        | .ok t2 =>
            (.ok t2,
              [.transcribeCall (url ++ ".mp3") fname, .transcribeCall url fname])
      else
        (.ok t, [.transcribeCall (url ++ ".mp3") fname])

/-- The body of `process_recording` after URL validation, producing the built
`VoiceResponse` and the trace of external calls. -/
def processRecordingPipeline (env : Env) (url : String) :
    List TwiMLVerb × List ExtCall :=
  let downloadFilename := "recording_" ++ env.unique ++ ".mp3"
  match transcriptionStage env url downloadFilename with
  | (.error _, calls) => ([.say audioErrorMsg], calls)
  | (.ok transcription, calls) =>
      match env.askChatgpt transcription with
      | .error _ => ([.say chatErrorMsg], calls ++ [.chatCall transcription])
      | .ok answer =>
          let outMp3Name := "response_" ++ env.unique ++ ".mp3"
          match env.ttsSaveMp3 answer outMp3Name with
          | .error _ =>
              ([.say ttsErrorMsg],
                calls ++ [.chatCall transcription, .ttsCall answer outMp3Name])
          | .ok mp3PublicUrl =>
              ([.pause 1, .play mp3PublicUrl, .say closingMsg],
                calls ++ [.chatCall transcription, .ttsCall answer outMp3Name])

/-- `process_recording` (app.py:97-152) as a function of the oracle
environment and the three optional form fields, returning the built
`VoiceResponse` verbs and the trace of external client calls.
`if not RecordingUrl` in Python is true exactly when the field is absent
(`None`) or the empty string. -/
def process_recording (env : Env) (RecordingUrl : Option String)
    (RecordingDuration RecordingSid : Option String) :
    List TwiMLVerb × List ExtCall :=
  match RecordingUrl with
  | none => ([.say missingRecordingMsg], [])
  | some url =>
      if url = "" then ([.say missingRecordingMsg], [])
      else processRecordingPipeline env url

/-- The HTTP reply of `process_recording`: every branch returns
`PlainTextResponse(resp.to_xml(), media_type="application/xml")`. -/
def process_recording_http (env : Env) (RecordingUrl : Option String)
    (RecordingDuration RecordingSid : Option String) :
    HttpReply × List ExtCall :=
  let r := process_recording env RecordingUrl RecordingDuration RecordingSid
  (twimlReply r.1, r.2)

/-! ### The `/voice` handler (`voice_handler`, app.py:79-94) -/

/-- `voice_handler` (app.py:79-94): builds a prompt, a record directive
posting to `{HOST_URL}/process_recording`, and a fallback line.  The handler
reads no request data and has no failure branch, so it is a pure function of
the configured host URL. -/
def voice_handler (hostUrl : String) : List TwiMLVerb :=
  [.say voicePrompt,
    .record 30 true "trim-silence" (hostUrl ++ "/process_recording") "#",
    .say voiceFallback]

/-- The HTTP reply of `voice_handler`. -/
def voice_handler_http (hostUrl : String) : HttpReply :=
  twimlReply (voice_handler hostUrl)

def TwiMLVerb.isRecord : TwiMLVerb → Bool
  | .record _ _ _ _ _ => true
  | _ => false

def TwiMLVerb.isSay : TwiMLVerb → Bool
  | .say _ => true
  | _ => false

/-! ### String helpers used to state "contains / ends with" properties -/

/-- `listStartsWith p l` is true when `p` is an initial segment of `l`. -/
def listStartsWith : List Char → List Char → Bool
  | [], _ => true
  | _ :: _, [] => false
  | p :: ps, c :: cs => p == c && listStartsWith ps cs

/-- `listHasSub pat l` is true when `pat` occurs contiguously inside `l`. -/
def listHasSub (pat : List Char) : List Char → Bool
  | [] => pat.isEmpty
  | c :: rest => listStartsWith pat (c :: rest) || listHasSub pat rest

/-- `strHasSub s pat` is true when `pat` occurs as a substring of `s`. -/
def strHasSub (s pat : String) : Bool :=
  listHasSub pat.toList s.toList

/-- `strEndsWith s suffix` is true when `s` ends with `suffix`. -/
def strEndsWith (s suffix : String) : Bool :=
  listStartsWith suffix.toList.reverse s.toList.reverse

/-! ### The transcription client (`transcribe_audio_from_url`, app.py:32-49) -/

/-- The response of `requests.get(file_url)`: HTTP status and body bytes
(modelled as a string). -/
structure DownloadResp where
  status : Nat
  content : String
  deriving DecidableEq, Repr

/-- The response of the `requests.post` to the transcription API: HTTP status,
raw body text (`r.text`), and the `"text"` field of the parsed JSON body
(`r.json().get("text", ...)`), `none` when the field is absent.  The model
assumes the success body parses as a JSON object, which is the shape the
claims describe. -/
structure TranscriptApiResp where
  status : Nat
  text : String
  jsonText : Option String
  deriving DecidableEq, Repr

/-- The HTTP world seen by `transcribe_audio_from_url`: `get` models
`requests.get` on the audio URL, `post` models the multipart POST of the
downloaded file contents together with the model selector to
`OPENAI_TRANSCRIPT_URL`. -/
structure TranscribeWorld where
  get : String → DownloadResp
  post : String → String → TranscriptApiResp

/-- `transcribe_audio_from_url` (app.py:32-49).  Returns the transcript or the
raised exception (modelled as its message string), together with the list of
files written to local public storage (path, contents).
`resp.raise_for_status()` raises `requests.HTTPError` exactly when
`400 ≤ status_code < 600`. -/
def transcribe_audio_from_url (w : TranscribeWorld) (file_url filename : String) :
    Except String String × List (String × String) :=
  let resp := w.get file_url
  if 400 ≤ resp.status ∧ resp.status < 600 then
    (.error ("HTTPError: " ++ toString resp.status ++ " for url " ++ file_url), [])
  else
    let audio_path := "static/" ++ filename
    let r := w.post resp.content "whisper-1"
    if r.status ≠ 200 then
      (.error ("Transcription error: " ++ toString r.status ++ " " ++ r.text),
        [(audio_path, resp.content)])
    else
      (.ok (r.jsonText.getD ""), [(audio_path, resp.content)])

/-! ### The completion client (`ask_chatgpt`, app.py:52-66) -/

structure ChatMessage where
  role : String
  content : String
  deriving DecidableEq, Repr

/-- The JSON payload posted to `OPENAI_CHAT_URL`. -/
structure ChatPayload where
  model : String
  messages : List ChatMessage
  maxTokens : Nat
  deriving DecidableEq, Repr

/-- The response of the chat-completion POST: HTTP status, raw body text, and
`r.json()["choices"][0]["message"]["content"]` (the model assumes the success
body has at least one choice, the shape the claims describe). -/
structure ChatApiResp where
  status : Nat
  text : String
  firstChoiceContent : String
  deriving DecidableEq, Repr

structure ChatWorld where
  post : ChatPayload → ChatApiResp

def systemInstruction : String :=
  "You are a helpful assistant answering callers briefly."

/-- The payload constructed by `ask_chatgpt` (app.py:54-61). -/
def chat_payload (prompt_text : String) : ChatPayload :=
  { model := "gpt-3.5-turbo",
    messages :=
      [{ role := "system", content := systemInstruction },
        { role := "user", content := prompt_text }],
    maxTokens := 250 }

/-- `ask_chatgpt` (app.py:52-66): posts the two-message payload and returns the
trimmed first-choice content, or the raised exception's message. -/
def ask_chatgpt (w : ChatWorld) (prompt_text : String) : Except String String :=
  let r := w.post (chat_payload prompt_text)
  if r.status ≠ 200 then
    .error ("Chat error: " ++ toString r.status ++ " " ++ r.text)
  else
    .ok (pyStrip r.firstChoiceContent)

/-! ### Failure stages of `process_recording` -/

/-- The four failure points of the `/process_recording` pipeline. -/
inductive Stage where
  | missingRecording
  | transcription
  | completion
  | synthesis
  deriving DecidableEq, Repr

/-- The fixed apology spoken for each failure stage (app.py:106,122,131,141). -/
def apologyText : Stage → String
  | .missingRecording => missingRecordingMsg
  | .transcription => audioErrorMsg
  | .completion => chatErrorMsg
  | .synthesis => ttsErrorMsg

/-- Which stage (if any) of `process_recording` fails, following the source's
control flow: URL validation, then transcription (with its retry), then
completion, then synthesis. -/
def failedStage (env : Env) (RecordingUrl : Option String) : Option Stage :=
  match RecordingUrl with
  | none => some .missingRecording
  | some url =>
      if url = "" then some .missingRecording
      else
        match (transcriptionStage env url ("recording_" ++ env.unique ++ ".mp3")).1 with
        | .error _ => some .transcription
        | .ok t =>
            match env.askChatgpt t with
            | .error _ => some .completion
            | .ok a =>
                match env.ttsSaveMp3 a ("response_" ++ env.unique ++ ".mp3") with
                | .error _ => some .synthesis
                | .ok _ => none

/-! ### Concrete environments used by the witness theorems -/

/-- Environment whose transcription client always raises. -/
def envTranscribeFails : Env :=
  { transcribe := fun _ _ => .error "boom",
    askChatgpt := fun _ => .ok "Paris.",
    ttsSaveMp3 := fun _ _ => .ok "http://host/static/response_X.mp3",
    unique := "u0" }

/-- Environment in which all three clients succeed, matching the spec's
end-to-end scenario. -/
def envAllSucceed : Env :=
  { transcribe := fun _ _ => .ok "What is the capital of France?",
    askChatgpt := fun _ => .ok "Paris.",
    ttsSaveMp3 := fun _ _ => .ok "http://host/static/response_X.mp3",
    unique := "u0" }

/-- Environment in which transcription and completion succeed but speech
synthesis raises. -/
def envTtsFails : Env :=
  { transcribe := fun _ _ => .ok "What is the capital of France?",
    askChatgpt := fun _ => .ok "Paris.",
    ttsSaveMp3 := fun _ _ => .error "gtts down",
    unique := "u0" }

/-- An HTTP world in which both the download and the transcription API
succeed. -/
def transcribeWorldOk : TranscribeWorld :=
  { get := fun _ => { status := 200, content := "audio-bytes" },
    post := fun _ _ => { status := 200, text := "raw-body", jsonText := some "hello" } }

/-- A chat world whose completion API succeeds with padded content. -/
def chatWorldOk : ChatWorld :=
  { post := fun _ => { status := 200, text := "raw-body", firstChoiceContent := " Paris. " } }

end CallQA

namespace CallQA

/-! ## Theorems for the claims -/

/-- **C7**: For every inbound call to the entry webhook, the response is a
markup document containing a spoken prompt, then exactly one record directive
configured with maximum duration 30 seconds, silence trimming enabled, stop
key "#", and an action URL pointing at the recording-processor endpoint, then
a spoken fallback line.  `voice_handler` is a total function of the host URL
reading no request data, so it has no error conditions. -/
theorem voice_handler_markup (hostUrl : String) :
    voice_handler_http hostUrl =
      twimlReply
        [.say voicePrompt,
          .record 30 true "trim-silence" (hostUrl ++ "/process_recording") "#",
          .say voiceFallback] ∧
    ((voice_handler hostUrl).filter (fun v => v.isRecord)).length = 1 := by
  constructor
  · rfl
  · simp [voice_handler, TwiMLVerb.isRecord]

/-- **C2**: when `RecordingUrl` is absent or empty, the processor answers with
the "couldn't find your recording" line and performs zero external calls. -/
theorem missing_recording_no_calls (env : Env) (url? : Option String)
    (dur sid : Option String) (h : url? = none ∨ url? = some "") :
    (process_recording env url? dur sid).1 = [.say missingRecordingMsg] ∧
    strHasSub missingRecordingMsg "couldn't find your recording" = true ∧
    (process_recording env url? dur sid).2 = [] := by
  rcases h with h | h <;> subst h <;>
    exact ⟨rfl, by decide, rfl⟩

/-- Witness for C2 at `RecordingUrl = none`. -/
theorem missing_recording_no_calls_witness :
    ((none : Option String) = none ∨ (none : Option String) = some "") ∧
    ((process_recording envTranscribeFails none none none).1 =
        [.say missingRecordingMsg] ∧
      strHasSub missingRecordingMsg "couldn't find your recording" = true ∧
      (process_recording envTranscribeFails none none none).2 = []) :=
  ⟨Or.inl rfl,
    missing_recording_no_calls envTranscribeFails none none none (Or.inl rfl)⟩

/-- **C1**: whenever a transcription attempt (the ".mp3"-suffixed attempt or
the unmodified-URL retry) raises, the response is the audio-processing apology
and neither the completion client nor the synthesis client is invoked. -/
theorem transcription_failure_apology_no_downstream (env : Env) (url : String)
    (dur sid : Option String) (hurl : url ≠ "")
    (hfail :
      (∃ e, env.transcribe (url ++ ".mp3") ("recording_" ++ env.unique ++ ".mp3") =
        .error e) ∨
      (∃ t e,
        env.transcribe (url ++ ".mp3") ("recording_" ++ env.unique ++ ".mp3") =
          .ok t ∧
        pyStrip t = "" ∧
        env.transcribe url ("recording_" ++ env.unique ++ ".mp3") = .error e)) :
    (process_recording env (some url) dur sid).1 = [.say audioErrorMsg] ∧
    strHasSub audioErrorMsg "error processing your audio" = true ∧
    ∀ c ∈ (process_recording env (some url) dur sid).2,
      c.isChat = false ∧ c.isTts = false := by
  rcases hfail with ⟨e, he⟩ | ⟨t, e, ht, htrim, he⟩
  · simp [process_recording, hurl, processRecordingPipeline, transcriptionStage,
      he, ExtCall.isChat, ExtCall.isTts, strHasSub, listHasSub, listStartsWith]
  · simp [process_recording, hurl, processRecordingPipeline, transcriptionStage,
      he, ht, htrim, ExtCall.isChat, ExtCall.isTts, strHasSub, listHasSub,
      listStartsWith]

/-- Witness for C1: a concrete environment whose transcription client raises
on the first attempt. -/
theorem transcription_failure_apology_no_downstream_witness :
    ("http://rec" : String) ≠ "" ∧
    ((∃ e,
        envTranscribeFails.transcribe ("http://rec" ++ ".mp3")
          ("recording_" ++ envTranscribeFails.unique ++ ".mp3") = .error e) ∨
      (∃ t e,
        envTranscribeFails.transcribe ("http://rec" ++ ".mp3")
          ("recording_" ++ envTranscribeFails.unique ++ ".mp3") = .ok t ∧
        pyStrip t = "" ∧
        envTranscribeFails.transcribe "http://rec"
          ("recording_" ++ envTranscribeFails.unique ++ ".mp3") = .error e)) ∧
    ((process_recording envTranscribeFails (some "http://rec") none none).1 =
        [.say audioErrorMsg] ∧
      strHasSub audioErrorMsg "error processing your audio" = true ∧
      ∀ c ∈ (process_recording envTranscribeFails (some "http://rec") none none).2,
        c.isChat = false ∧ c.isTts = false) :=
  ⟨by decide, Or.inl ⟨"boom", rfl⟩,
    transcription_failure_apology_no_downstream envTranscribeFails "http://rec"
      none none (by decide) (Or.inl ⟨"boom", rfl⟩)⟩

/-- **C4**: when transcription and completion succeed but synthesis raises,
the response is the reply-preparation apology and contains no play
directive. -/
theorem synthesis_failure_apology_no_play (env : Env) (url : String)
    (dur sid : Option String) (hurl : url ≠ "") (t a e : String)
    (htrans :
      (transcriptionStage env url ("recording_" ++ env.unique ++ ".mp3")).1 = .ok t)
    (hchat : env.askChatgpt t = .ok a)
    (htts : env.ttsSaveMp3 a ("response_" ++ env.unique ++ ".mp3") = .error e) :
    (process_recording env (some url) dur sid).1 = [.say ttsErrorMsg] ∧
    strHasSub ttsErrorMsg "error occurred preparing my reply" = true ∧
    ∀ u, TwiMLVerb.play u ∉ (process_recording env (some url) dur sid).1 := by
  have hpipe :
      processRecordingPipeline env url = ([.say ttsErrorMsg],
        (transcriptionStage env url ("recording_" ++ env.unique ++ ".mp3")).2 ++
          [.chatCall t, .ttsCall a ("response_" ++ env.unique ++ ".mp3")]) := by
    unfold processRecordingPipeline
    rcases hT :
        transcriptionStage env url ("recording_" ++ env.unique ++ ".mp3") with
      ⟨res, calls⟩
    rw [hT] at htrans
    simp at htrans
    subst htrans
    simp [hT, hchat, htts]
  refine ⟨?_, by decide, ?_⟩ <;>
    simp [process_recording, hurl, hpipe]

/-- Witness for C4: transcription and completion succeed, synthesis raises. -/
theorem synthesis_failure_apology_no_play_witness :
    ("http://rec" : String) ≠ "" ∧
    (transcriptionStage envTtsFails "http://rec"
        ("recording_" ++ envTtsFails.unique ++ ".mp3")).1 =
      .ok "What is the capital of France?" ∧
    envTtsFails.askChatgpt "What is the capital of France?" = .ok "Paris." ∧
    envTtsFails.ttsSaveMp3 "Paris." ("response_" ++ envTtsFails.unique ++ ".mp3") =
      .error "gtts down" ∧
    ((process_recording envTtsFails (some "http://rec") none none).1 =
        [.say ttsErrorMsg] ∧
      strHasSub ttsErrorMsg "error occurred preparing my reply" = true ∧
      ∀ u, TwiMLVerb.play u ∉
        (process_recording envTtsFails (some "http://rec") none none).1) :=
  ⟨by decide, rfl, rfl, rfl,
    synthesis_failure_apology_no_play envTtsFails "http://rec" none none
      (by decide) "What is the capital of France?" "Paris." "gtts down"
      rfl rfl rfl⟩

/-- **C6**: when all three stages succeed and synthesis yields public URL `u`,
the markup is, in order: a 1-second pause, a play directive on exactly `u`,
and the closing spoken line inviting another call. -/
theorem success_markup (env : Env) (url : String) (dur sid : Option String)
    (hurl : url ≠ "") (t a u : String)
    (htrans :
      (transcriptionStage env url ("recording_" ++ env.unique ++ ".mp3")).1 = .ok t)
    (hchat : env.askChatgpt t = .ok a)
    (htts : env.ttsSaveMp3 a ("response_" ++ env.unique ++ ".mp3") = .ok u) :
    (process_recording env (some url) dur sid).1 =
      [.pause 1, .play u, .say closingMsg] := by
  have hpipe :
      processRecordingPipeline env url = ([.pause 1, .play u, .say closingMsg],
        (transcriptionStage env url ("recording_" ++ env.unique ++ ".mp3")).2 ++
          [.chatCall t, .ttsCall a ("response_" ++ env.unique ++ ".mp3")]) := by
    unfold processRecordingPipeline
    rcases hT :
        transcriptionStage env url ("recording_" ++ env.unique ++ ".mp3") with
      ⟨res, calls⟩
    rw [hT] at htrans
    simp at htrans
    subst htrans
    simp [hT, hchat, htts]
  simp [process_recording, hurl, hpipe]

/-- Witness for C6: the spec's end-to-end scenario, with the mocked
transcription, completion and synthesis values. -/
theorem success_markup_witness :
    ("http://rec" : String) ≠ "" ∧
    (transcriptionStage envAllSucceed "http://rec"
        ("recording_" ++ envAllSucceed.unique ++ ".mp3")).1 =
      .ok "What is the capital of France?" ∧
    envAllSucceed.askChatgpt "What is the capital of France?" = .ok "Paris." ∧
    envAllSucceed.ttsSaveMp3 "Paris."
        ("response_" ++ envAllSucceed.unique ++ ".mp3") =
      .ok "http://host/static/response_X.mp3" ∧
    (process_recording envAllSucceed (some "http://rec") none none).1 =
      [.pause 1, .play "http://host/static/response_X.mp3", .say closingMsg] :=
  ⟨by decide, rfl, rfl, rfl,
    success_markup envAllSucceed "http://rec" none none (by decide)
      "What is the capital of France?" "Paris."
      "http://host/static/response_X.mp3" rfl rfl rfl⟩

/-- **C3**: with a `RecordingUrl` present, the first transcription attempt is
against the ".mp3"-suffixed URL; a second attempt, against the unmodified URL,
is issued exactly when the first returns whitespace-only (or empty) text; and
all transcription calls precede every other external call of the request. -/
theorem transcription_retry_iff_empty (env : Env) (url : String)
    (dur sid : Option String) (hurl : url ≠ "") :
    (process_recording env (some url) dur sid).2.filter ExtCall.isTranscribe =
      (match env.transcribe (url ++ ".mp3")
          ("recording_" ++ env.unique ++ ".mp3") with
       | .ok t =>
           if pyStrip t = "" then
             [.transcribeCall (url ++ ".mp3")
                ("recording_" ++ env.unique ++ ".mp3"),
              .transcribeCall url ("recording_" ++ env.unique ++ ".mp3")]
           else
             [.transcribeCall (url ++ ".mp3")
                ("recording_" ++ env.unique ++ ".mp3")]
       | .error _ =>
           [.transcribeCall (url ++ ".mp3")
              ("recording_" ++ env.unique ++ ".mp3")]) ∧
    (process_recording env (some url) dur sid).2 =
      (process_recording env (some url) dur sid).2.filter ExtCall.isTranscribe ++
        (process_recording env (some url) dur sid).2.filter
          (fun c => !c.isTranscribe) := by
  cases h1 : env.transcribe (url ++ ".mp3")
      ("recording_" ++ env.unique ++ ".mp3") with
  | error e =>
      simp [process_recording, hurl, processRecordingPipeline,
        transcriptionStage, h1, ExtCall.isTranscribe]
  | ok t =>
      by_cases hts : pyStrip t = ""
      · cases h2 : env.transcribe url ("recording_" ++ env.unique ++ ".mp3") with
        | error e =>
            simp [process_recording, hurl, processRecordingPipeline,
              transcriptionStage, h1, h2, hts, ExtCall.isTranscribe]
        | ok t2 =>
            cases h3 : env.askChatgpt t2 with
            | error e =>
                simp [process_recording, hurl, processRecordingPipeline,
                  transcriptionStage, h1, h2, h3, hts, ExtCall.isTranscribe]
            | ok a =>
                cases h4 : env.ttsSaveMp3 a
                    ("response_" ++ env.unique ++ ".mp3") with
                | error e =>
                    simp [process_recording, hurl, processRecordingPipeline,
                      transcriptionStage, h1, h2, h3, h4, hts,
                      ExtCall.isTranscribe]
                | ok u =>
                    simp [process_recording, hurl, processRecordingPipeline,
                      transcriptionStage, h1, h2, h3, h4, hts,
                      ExtCall.isTranscribe]
      · cases h3 : env.askChatgpt t with
        | error e =>
            simp [process_recording, hurl, processRecordingPipeline,
              transcriptionStage, h1, h3, hts, ExtCall.isTranscribe]
        | ok a =>
            cases h4 : env.ttsSaveMp3 a ("response_" ++ env.unique ++ ".mp3") with
            | error e =>
                simp [process_recording, hurl, processRecordingPipeline,
                  transcriptionStage, h1, h3, h4, hts, ExtCall.isTranscribe]
            | ok u =>
                simp [process_recording, hurl, processRecordingPipeline,
                  transcriptionStage, h1, h3, h4, hts, ExtCall.isTranscribe]

/-- Witness for C3 at an environment whose first attempt succeeds with
non-empty text. -/
theorem transcription_retry_iff_empty_witness :
    ("http://rec" : String) ≠ "" ∧
    ((process_recording envAllSucceed (some "http://rec") none none).2.filter
        ExtCall.isTranscribe =
      (match envAllSucceed.transcribe ("http://rec" ++ ".mp3")
          ("recording_" ++ envAllSucceed.unique ++ ".mp3") with
       | .ok t =>
           if pyStrip t = "" then
             [.transcribeCall ("http://rec" ++ ".mp3")
                ("recording_" ++ envAllSucceed.unique ++ ".mp3"),
              .transcribeCall "http://rec"
                ("recording_" ++ envAllSucceed.unique ++ ".mp3")]
           else
             [.transcribeCall ("http://rec" ++ ".mp3")
                ("recording_" ++ envAllSucceed.unique ++ ".mp3")]
       | .error _ =>
           [.transcribeCall ("http://rec" ++ ".mp3")
              ("recording_" ++ envAllSucceed.unique ++ ".mp3")]) ∧
      (process_recording envAllSucceed (some "http://rec") none none).2 =
        (process_recording envAllSucceed (some "http://rec") none none).2.filter
          ExtCall.isTranscribe ++
          (process_recording envAllSucceed (some "http://rec") none none).2.filter
            (fun c => !c.isTranscribe)) :=
  ⟨by decide,
    transcription_retry_iff_empty envAllSucceed "http://rec" none none (by decide)⟩

/-- Every branch of `process_recording` puts at least one spoken line in the
response. -/
theorem process_recording_contains_say (env : Env) (url? : Option String)
    (dur sid : Option String) :
    ∃ t, TwiMLVerb.say t ∈ (process_recording env url? dur sid).1 := by
  cases url? with
  | none => exact ⟨missingRecordingMsg, by simp [process_recording]⟩
  | some url =>
      by_cases hurl : url = ""
      · exact ⟨missingRecordingMsg, by simp [process_recording, hurl]⟩
      · cases h1 : env.transcribe (url ++ ".mp3")
            ("recording_" ++ env.unique ++ ".mp3") with
        | error e =>
            exact ⟨audioErrorMsg, by
              simp [process_recording, hurl, processRecordingPipeline,
                transcriptionStage, h1]⟩
        | ok t =>
            by_cases hts : pyStrip t = ""
            · cases h2 : env.transcribe url
                  ("recording_" ++ env.unique ++ ".mp3") with
              | error e =>
                  exact ⟨audioErrorMsg, by
                    simp [process_recording, hurl, processRecordingPipeline,
                      transcriptionStage, h1, h2, hts]⟩
              | ok t2 =>
                  cases h3 : env.askChatgpt t2 with
                  | error e =>
                      exact ⟨chatErrorMsg, by
                        simp [process_recording, hurl, processRecordingPipeline,
                          transcriptionStage, h1, h2, h3, hts]⟩
                  | ok a =>
                      cases h4 : env.ttsSaveMp3 a
                          ("response_" ++ env.unique ++ ".mp3") with
                      | error e =>
                          exact ⟨ttsErrorMsg, by
                            simp [process_recording, hurl,
                              processRecordingPipeline, transcriptionStage,
                              h1, h2, h3, h4, hts]⟩
                      | ok u =>
                          exact ⟨closingMsg, by
                            simp [process_recording, hurl,
                              processRecordingPipeline, transcriptionStage,
                              h1, h2, h3, h4, hts]⟩
            · cases h3 : env.askChatgpt t with
              | error e =>
                  exact ⟨chatErrorMsg, by
                    simp [process_recording, hurl, processRecordingPipeline,
                      transcriptionStage, h1, h3, hts]⟩
              | ok a =>
                  cases h4 : env.ttsSaveMp3 a
                      ("response_" ++ env.unique ++ ".mp3") with
                  | error e =>
                      exact ⟨ttsErrorMsg, by
                        simp [process_recording, hurl, processRecordingPipeline,
                          transcriptionStage, h1, h3, h4, hts]⟩
                  | ok u =>
                      exact ⟨closingMsg, by
                        simp [process_recording, hurl, processRecordingPipeline,
                          transcriptionStage, h1, h3, h4, hts]⟩

/-- **C5**: every `/process_recording` request — whatever the oracles do and
whichever stage fails — is answered with HTTP status 200, media type
`application/xml`, and a body that is the XML rendering of a TwiML verb list
containing at least one spoken line. -/
theorem process_recording_always_200_xml (env : Env) (url? : Option String)
    (dur sid : Option String) :
    (process_recording_http env url? dur sid).1.status = 200 ∧
    (process_recording_http env url? dur sid).1.mediaType = "application/xml" ∧
    ∃ vs, (process_recording_http env url? dur sid).1 = twimlReply vs ∧
      ∃ t, TwiMLVerb.say t ∈ vs := by
  refine ⟨rfl, rfl, (process_recording env url? dur sid).1, rfl, ?_⟩
  exact process_recording_contains_say env url? dur sid

/-- **C8**: `transcribe_audio_from_url` raises on a failed HTTP fetch; after a
successful download it raises, carrying the API status code and response body,
exactly when the transcription API status is not 200, and on status 200 it
returns the `"text"` field of the JSON response, or empty text when that field
is absent. -/
theorem transcribe_audio_contract (w : TranscribeWorld)
    (file_url filename : String) :
    ((400 ≤ (w.get file_url).status ∧ (w.get file_url).status < 600) →
      (transcribe_audio_from_url w file_url filename).1 =
        .error ("HTTPError: " ++ toString (w.get file_url).status ++
          " for url " ++ file_url)) ∧
    (¬(400 ≤ (w.get file_url).status ∧ (w.get file_url).status < 600) →
      (((w.post (w.get file_url).content "whisper-1").status ≠ 200 →
          (transcribe_audio_from_url w file_url filename).1 =
            .error ("Transcription error: " ++
              toString (w.post (w.get file_url).content "whisper-1").status ++
              " " ++ (w.post (w.get file_url).content "whisper-1").text)) ∧
        ((w.post (w.get file_url).content "whisper-1").status = 200 →
          (transcribe_audio_from_url w file_url filename).1 =
            .ok ((w.post (w.get file_url).content "whisper-1").jsonText.getD "")))) := by
  by_cases hdl : 400 ≤ (w.get file_url).status ∧ (w.get file_url).status < 600
  · refine ⟨fun _ => ?_, fun h => absurd hdl h⟩
    simp [transcribe_audio_from_url, hdl]
  · refine ⟨fun h => absurd h hdl, fun _ => ⟨fun hst => ?_, fun hst => ?_⟩⟩ <;>
      simp [transcribe_audio_from_url, hdl, hst]

/-- Witness for C8: a world in which both the download and the API succeed,
with the API JSON carrying `"text": "hello"`. -/
theorem transcribe_audio_contract_witness :
    ¬(400 ≤ (transcribeWorldOk.get "http://rec.mp3").status ∧
        (transcribeWorldOk.get "http://rec.mp3").status < 600) ∧
    (transcribeWorldOk.post (transcribeWorldOk.get "http://rec.mp3").content
        "whisper-1").status = 200 ∧
    (transcribe_audio_from_url transcribeWorldOk "http://rec.mp3"
        "recording_u0.mp3").1 = .ok "hello" :=
  ⟨by decide, rfl,
    ((transcribe_audio_contract transcribeWorldOk "http://rec.mp3"
        "recording_u0.mp3").2 (by decide)).2 rfl⟩

/-- **C9**: `ask_chatgpt` posts a two-message conversation — the fixed system
instruction and the transcript as user message — with a 250-token ceiling,
raises carrying the status and body exactly when the HTTP status is not 200,
and on status 200 returns the whitespace-trimmed content of the first
choice. -/
theorem ask_chatgpt_contract (w : ChatWorld) (p : String) :
    (chat_payload p).messages =
      [{ role := "system", content := systemInstruction },
        { role := "user", content := p }] ∧
    (chat_payload p).maxTokens = 250 ∧
    ((w.post (chat_payload p)).status ≠ 200 →
      ask_chatgpt w p =
        .error ("Chat error: " ++ toString (w.post (chat_payload p)).status ++
          " " ++ (w.post (chat_payload p)).text)) ∧
    ((w.post (chat_payload p)).status = 200 →
      ask_chatgpt w p =
        .ok (pyStrip (w.post (chat_payload p)).firstChoiceContent)) := by
  refine ⟨rfl, rfl, fun h => ?_, fun h => ?_⟩ <;> simp [ask_chatgpt, h]

/-- Witness for C9: a chat world answering 200 with padded content, which
comes back trimmed. -/
theorem ask_chatgpt_contract_witness :
    (chatWorldOk.post (chat_payload "Q")).status = 200 ∧
    ask_chatgpt chatWorldOk "Q" = .ok "Paris." :=
  ⟨rfl, ((ask_chatgpt_contract chatWorldOk "Q").2.2.2) rfl⟩

/-- **C10**: on every failure path, the markup is a single spoken line ending
in "Goodbye.", drawn from the four fixed apology strings according to the
failing stage alone (so independent of the exception's content), with no play,
pause or record directive and no URL in the text. -/
theorem failure_markup_single_say (env : Env) (url? : Option String)
    (dur sid : Option String) (st : Stage)
    (h : failedStage env url? = some st) :
    (process_recording env url? dur sid).1 = [.say (apologyText st)] ∧
    strEndsWith (apologyText st) "Goodbye." = true ∧
    (apologyText st = missingRecordingMsg ∨ apologyText st = audioErrorMsg ∨
      apologyText st = chatErrorMsg ∨ apologyText st = ttsErrorMsg) ∧
    (∀ v ∈ (process_recording env url? dur sid).1, v.isSay = true) ∧
    strHasSub (apologyText st) "://" = false := by
  have h1 : (process_recording env url? dur sid).1 = [.say (apologyText st)] := by
    cases url? with
    | none =>
        simp [failedStage] at h
        subst h
        simp [process_recording, apologyText]
    | some url =>
        by_cases hurl : url = ""
        · subst hurl
          simp [failedStage] at h
          subst h
          simp [process_recording, apologyText]
        · rcases hT : transcriptionStage env url
              ("recording_" ++ env.unique ++ ".mp3") with ⟨res, calls⟩
          cases res with
          | error e =>
              simp [failedStage, hurl, hT] at h
              subst h
              simp [process_recording, hurl, processRecordingPipeline, hT,
                apologyText]
          | ok t =>
              cases h3 : env.askChatgpt t with
              | error e =>
                  simp [failedStage, hurl, hT, h3] at h
                  subst h
                  simp [process_recording, hurl, processRecordingPipeline, hT,
                    h3, apologyText]
              | ok a =>
                  cases h4 : env.ttsSaveMp3 a
                      ("response_" ++ env.unique ++ ".mp3") with
                  | error e =>
                      simp [failedStage, hurl, hT, h3, h4] at h
                      subst h
                      simp [process_recording, hurl, processRecordingPipeline,
                        hT, h3, h4, apologyText]
                  | ok u =>
                      simp [failedStage, hurl, hT, h3, h4] at h
  refine ⟨h1, ?_, ?_, ?_, ?_⟩
  · cases st <;> decide
  · cases st <;> simp [apologyText]
  · rw [h1]
    intro v hv
    simp only [List.mem_singleton] at hv
    subst hv
    rfl
  · cases st <;> decide

/-- Witness for C10 at the transcription-failure stage. -/
theorem failure_markup_single_say_witness :
    failedStage envTranscribeFails (some "http://rec") = some .transcription ∧
    ((process_recording envTranscribeFails (some "http://rec") none none).1 =
        [.say (apologyText .transcription)] ∧
      strEndsWith (apologyText .transcription) "Goodbye." = true ∧
      (apologyText .transcription = missingRecordingMsg ∨
        apologyText .transcription = audioErrorMsg ∨
        apologyText .transcription = chatErrorMsg ∨
        apologyText .transcription = ttsErrorMsg) ∧
      (∀ v ∈ (process_recording envTranscribeFails (some "http://rec") none none).1,
        v.isSay = true) ∧
      strHasSub (apologyText .transcription) "://" = false) :=
  ⟨rfl,
    failure_markup_single_say envTranscribeFails (some "http://rec") none none
      .transcription rfl⟩

end CallQA
